import Mathlib

/-
  Verification development for the HTRPipeline-CTC-CRNN batch orchestration
  scripts.  The Python sources are shallowly embedded: strings are lists of
  characters, the filesystem is an explicit state record, and the external
  rasterization / recognition engines are function parameters.  Each
  definition carries a comment naming the source function it embeds.
-/

namespace HTR

/-- A recognized word's text, as Python str: a list of characters. -/
abbrev Word := List Char

/-- A recognized line: ordered sequence of recognized words (their texts). -/
abbrev Line := List Word

/-- Python whitespace, the character class removed by str.strip(). -/
def isPyWs (c : Char) : Bool :=
  c = ' ' || c = '\t' || c = '\n' || c = '\r' || c = '\x0b' || c = '\x0c'

/-- Python sep.join(pieces) for a single-character separator sep. -/
def pyJoin (sep : Char) : List (List Char) → List Char
  | [] => []
  | [w] => w
  | w :: ws => w ++ sep :: pyJoin sep ws

/-- Python s.split(sep) for a single-character separator sep:
splits at every occurrence of sep; the empty string yields one empty piece. -/
def pySplit (sep : Char) : List Char → List (List Char)
  | [] => [[]]
  | c :: cs =>
    if c = sep then [] :: pySplit sep cs
    else
      match pySplit sep cs with
      | [] => [[c]]
      | p :: ps => (c :: p) :: ps

/-- Python s.strip(): drop leading and trailing whitespace characters. -/
def pstrip (s : List Char) : List Char :=
  ((s.dropWhile isPyWs).reverse.dropWhile isPyWs).reverse

/-- The page-text accumulation loop shared by gradio_demo.process_image_with_htr
(lines 98-101), pdf_demo_not_working.process_pdf_with_htr (lines 110-112) and
htr_new.create_htr_callback (lines 34-36): for each read line, the words'
texts joined by a single space, followed by a newline, concatenated in order. -/
def serCat : List Line → List Char
  | [] => []
  | l :: ls => (pyJoin ' ' l ++ ['\n']) ++ serCat ls

/-- A page's serialized text as the scripts return it: the accumulated
line text with Python str.strip() applied (the trailing return in
process_image_with_htr line 102 and htr_new line 38). -/
def serializePage (lines : List Line) : List Char :=
  pstrip (serCat lines)

/-- The round trip named by the spec: split the serialized page text by
newline, then split each piece by a single space. -/
def roundTripPage (t : List Char) : List Line :=
  (pySplit '\n' t).map (pySplit ' ')

/-- A PIL image: its mode string ("L" for single-channel grayscale) plus
abstract page dimensions and opaque pixel content. -/
structure PILImage where
  mode : String
  height : Nat
  width : Nat
  content : Nat
deriving DecidableEq, Repr

/-- An OpenCV image (numpy array): color flag (a 3-axis shape) plus
dimensions and opaque content. -/
structure CVImage where
  color : Bool
  height : Nat
  width : Nat
  content : Nat
deriving DecidableEq, Repr

/-- numpy shape of a CVImage: three axes for color, two for grayscale. -/
def CVImage.shape (i : CVImage) : List Nat :=
  if i.color then [i.height, i.width, 3] else [i.height, i.width]

/-- pil_image.convert('L') guarded by the mode check the scripts perform:
if pil_image.mode != 'L': pil_image = pil_image.convert('L'). -/
def pilToL (p : PILImage) : PILImage :=
  if p.mode = "L" then p else { p with mode := "L" }

/-- np.array(pil_image): an L-mode PIL image becomes a 2-axis array. -/
def npArray (p : PILImage) : CVImage :=
  { color := decide (p.mode ≠ "L"), height := p.height, width := p.width,
    content := p.content }

/-- cv2.cvtColor(img, COLOR_*2GRAY): drop the color axis, keep content. -/
def cvtColorGray (i : CVImage) : CVImage :=
  { i with color := false }

/-- Python truthiness of an optional string: None and "" are falsy. -/
def truthyStr : Option String → Bool
  | none => false
  | some s => decide (s ≠ "")

/-- Python a or b on optional strings: b whenever a is falsy. -/
def pyOrStr (a b : Option String) : Option String :=
  if truthyStr a then a else b

/-- Errors raised by the scripts' orchestration code, with their message. -/
inductive RunError where
  | fileNotFound (msg : String)
  | popplerNotFound (msg : String)
deriving DecidableEq, Repr

/-- An opaque recognition-engine failure. -/
structure RecError where
  msg : String
deriving DecidableEq, Repr

/-- htr_pipeline.DetectorConfig(scale=..., margin=...); the float scale is
modelled as a rational. -/
structure DetectorConfig where
  scale : ℚ
  margin : Nat
deriving DecidableEq

/-- htr_pipeline.LineClusteringConfig(min_words_per_line=...). -/
structure LineClusteringConfig where
  min_words_per_line : Nat
deriving DecidableEq

/-- The decoder names the scripts pass to ReaderConfig. -/
inductive Decoder where
  | best_path
  | word_beam_search
deriving DecidableEq, Repr

/-- htr_pipeline.PrefixTree(word_list): the word list it was built from. -/
structure PrefixTree where
  words : List Word
deriving DecidableEq

/-- htr_pipeline.ReaderConfig(decoder=..., prefix_tree=...). -/
structure ReaderConfig where
  decoder : Decoder
  prefix_tree : Option PrefixTree
deriving DecidableEq

/-- One invocation of the external engine read_page, recording exactly the
arguments the dispatching script passes. -/
structure EngineCall where
  image : CVImage
  detector_config : DetectorConfig
  line_clustering_config : LineClusteringConfig
  reader_config : ReaderConfig
deriving DecidableEq

/-- os.path.join for the forward-slash rendering of the scripts' paths. -/
def joinPath (a b : String) : String := a ++ "/" ++ b

/-- Python format {i:03d}: decimal rendering zero-padded to width 3. -/
def pad3 (n : Nat) : String :=
  let s := toString n
  if s.length ≥ 3 then s else String.mk (List.replicate (3 - s.length) '0') ++ s

/-- Observable side effects of a conversion run; a .rasterize event is
recorded exactly when the external convert_from_path engine is invoked. -/
inductive Event where
  | rasterize
deriving DecidableEq, Repr

namespace GradioDemo

/-- The fixed probe list of SimplePDFProcessor.find_poppler
(scripts/gradio_demo.py lines 17-21), in source order. -/
def paths_to_try : List String :=
  ["C:\\poppler\\poppler\\Library\\bin",
   "C:\\poppler\\bin",
   "C:\\Program Files\\poppler\\bin"]

/-- SimplePDFProcessor.find_poppler (gradio_demo.py lines 15-25): return the
first probed location that exists, else None.  The filesystem existence
check os.path.exists is the parameter ex. -/
def find_poppler (ex : String → Bool) : Option String :=
  paths_to_try.find? ex

/-- The remediation message of gradio_demo.py line 34. -/
def remediation : String :=
  "Poppler not found. Please install from: https://github.com/oschwartz10612/poppler-windows/releases/"

/-- The toolchain-locating fragment of convert_pdf_to_images
(gradio_demo.py lines 32-34): poppler_path = self.poppler_path or
self.find_poppler(); if not poppler_path: raise RuntimeError(...). -/
def locate (ex : String → Bool) (poppler_path : Option String) :
    Except RunError String :=
  match pyOrStr poppler_path (find_poppler ex) with
  | none => .error (.popplerNotFound remediation)
  | some p => if p = "" then .error (.popplerNotFound remediation) else .ok p

/-- SimplePDFProcessor.convert_pdf_to_images (gradio_demo.py lines 27-66).
The external rasterizer convert_from_path is the parameter rasterize
(document path, dpi, poppler path); invoking it is recorded as an Event.
Each produced PIL image is converted to L mode if needed and turned into a
numpy array; the optional output_dir write of page_{i:03d}.png does not
affect the returned list, which is always the in-memory images. -/
def convert_pdf_to_images (ex : String → Bool)
    (rasterize : String → Nat → String → List PILImage)
    (poppler_path : Option String) (dpi : Nat)
    (pdf_path : String) (_output_dir : Option String) :
    Except RunError (List CVImage) × List Event :=
  if ¬ ex pdf_path then
    (.error (.fileNotFound ("PDF file not found: " ++ pdf_path)), [])
  else
    match locate ex poppler_path with
    | .error e => (.error e, [])
    | .ok p =>
      let pil_images := rasterize pdf_path dpi p
      (.ok (pil_images.map (fun q => npArray (pilToL q))), [.rasterize])

/-- load_dictionary (gradio_demo.py lines 69-77): the optional file content
is the lines of data/words_alpha.txt when the file opens, none when the
open raises.  On success each line is stripped and uppercased and a
PrefixTree is built; on failure the function prints a warning and
returns None. -/
def load_dictionary (dictFile : Option (List Word)) : Option PrefixTree :=
  match dictFile with
  | none => none
  | some ws => some ⟨ws.map (fun w => (pstrip w).map Char.toUpper)⟩

/-- The engine invocation process_image_with_htr builds (gradio_demo.py
lines 79-95): grayscale the image if it has three axes, choose the decoder
by use_dictionary, load the prefix tree only when use_dictionary, and call
read_page with DetectorConfig(scale, margin), LineClusteringConfig(2) and
ReaderConfig(decoder, prefix_tree). -/
def process_image_call (image : CVImage) (scale : ℚ) (margin : Nat)
    (use_dictionary : Bool) (dictFile : Option (List Word)) : EngineCall :=
  let image := if image.shape.length = 3 then cvtColorGray image else image
  { image := image,
    detector_config := ⟨scale, margin⟩,
    line_clustering_config := ⟨2⟩,
    reader_config :=
      ⟨if use_dictionary then .word_beam_search else .best_path,
       if use_dictionary then load_dictionary dictFile else none⟩ }

/-- process_image_with_htr (gradio_demo.py lines 79-102): dispatch the
engine call and serialize the returned lines (join each line's words by a
space, one line per row, then strip).  The engine read_page may raise,
modelled as Except. -/
def process_image_with_htr
    (read_page : EngineCall → Except RecError (List Line))
    (image : CVImage) (scale : ℚ) (margin : Nat)
    (use_dictionary : Bool) (dictFile : Option (List Word)) :
    Except RecError (List Char) :=
  (read_page (process_image_call image scale margin use_dictionary dictFile)).map
    serializePage

/-- One entry of the results list of process_pdf_file (gradio_demo.py
lines 120-124): page number, page text, image shape. -/
structure GPageRec where
  page : Nat
  text : List Char
  image_shape : List Nat
deriving DecidableEq

/-- The per-page loop of process_pdf_file (gradio_demo.py lines 113-127),
with 1-based page numbering starting at i: process each image with the
default scale 0.4 and margin 5 of process_image_with_htr; a raised
recognition error propagates out of the loop. -/
def pagesLoop (read_page : EngineCall → Except RecError (List Line))
    (use_dictionary : Bool) (dictFile : Option (List Word)) :
    Nat → List CVImage → Except RecError (List GPageRec)
  | _, [] => .ok []
  | i, image :: rest =>
    match process_image_with_htr read_page image (2/5 : ℚ) 5 use_dictionary dictFile with
    | .error e => .error e
    | .ok text =>
      match pagesLoop read_page use_dictionary dictFile (i + 1) rest with
      | .error e => .error e
      | .ok rs => .ok ({ page := i, text := text, image_shape := image.shape } :: rs)

/-- process_pdf_file (gradio_demo.py lines 105-132): convert the PDF, run
the page loop from page 1, and return the results list; the surrounding
try/except turns any raised error — conversion or recognition — into a
None return, so no partial results list ever escapes. -/
def process_pdf_file (ex : String → Bool)
    (rasterize : String → Nat → String → List PILImage)
    (read_page : EngineCall → Except RecError (List Line))
    (pdf_path : String) (output_dir : Option String)
    (use_dictionary : Bool) (dictFile : Option (List Word)) :
    Option (List GPageRec) :=
  match (convert_pdf_to_images ex rasterize none 200 pdf_path output_dir).1 with
  | .error _ => none
  | .ok images =>
    match pagesLoop read_page use_dictionary dictFile 1 images with
    | .error _ => none
    | .ok rs => some rs

/-- The filesystem state save_results acts on: file contents by path, and
which directories exist. -/
@[ext]
structure FS where
  files : String → Option (List Char)
  dirs : String → Bool

/-- open(p, 'w').write(content): overwrite the file at p. -/
def writeFile (fs : FS) (p : String) (content : List Char) : FS :=
  { fs with files := fun q => if q = p then some content else fs.files q }

/-- os.makedirs(d, exist_ok=True): ensure the directory exists. -/
def makedirs (fs : FS) (d : String) : FS :=
  { fs with dirs := fun q => if q = d then true else fs.dirs q }

/-- Apply a list of file writes in order; later writes overwrite. -/
def applyWrites (ws : List (String × List Char)) (fs : FS) : FS :=
  ws.foldl (fun f w => writeFile f w.1 w.2) fs

/-- The most recent content written to q by the write list, if any. -/
def lastWrite (q : String) : List (String × List Char) → Option (List Char)
  | [] => none
  | w :: ws =>
    match lastWrite q ws with
    | some c => some c
    | none => if q = w.1 then some w.2 else none

/-- The per-page writes of save_results (gradio_demo.py lines 141-146):
output_dir/page_{page:03d}.txt gets the page's text, in result order. -/
def pageWrites (output_dir : String) (rs : List GPageRec) :
    List (String × List Char) :=
  rs.map (fun r => (joinPath output_dir ("page_" ++ pad3 r.page ++ ".txt"), r.text))

/-- The combined artifact content of save_results (gradio_demo.py lines
150-153): for every result, a page header line then the page text and a
blank separator line. -/
def combinedChars : List GPageRec → List Char
  | [] => []
  | r :: rs =>
    ("=== Page " ++ toString r.page ++ " ===").toList ++ '\n' ::
      (r.text ++ '\n' :: '\n' :: combinedChars rs)

/-- save_results (gradio_demo.py lines 134-154): if not results: return;
otherwise create the output directory, write each page's text file, then
write the combined all_pages.txt.  results is None when processing failed
and a possibly-empty list otherwise; both falsy cases return untouched. -/
def save_results (results : Option (List GPageRec)) (output_dir : String)
    (fs : FS) : FS :=
  match results with
  | none => fs
  | some rs =>
    if rs = [] then fs
    else
      writeFile (applyWrites (pageWrites output_dir rs) (makedirs fs output_dir))
        (joinPath output_dir "all_pages.txt") (combinedChars rs)

end GradioDemo

namespace PdfDemo

/-- Python str.format of os.getenv('USERNAME'): None renders as "None". -/
def fmtOpt : Option String → String
  | none => "None"
  | some s => s

/-- The probe list of PDFProcessor.find_poppler
(scripts/pdf_demo_not_working.py lines 19-24), in source order; the last
entry interpolates the USERNAME environment variable. -/
def possible_paths (username : Option String) : List String :=
  ["C:\\poppler\\poppler\\Library\\bin",
   "C:\\Program Files\\poppler\\bin",
   "C:\\poppler\\bin",
   "C:\\Users\\" ++ fmtOpt username ++ "\\AppData\\Local\\Programs\\poppler\\bin"]

/-- PDFProcessor.find_poppler (pdf_demo_not_working.py lines 17-28). -/
def find_poppler (ex : String → Bool) (username : Option String) :
    Option String :=
  (possible_paths username).find? ex

/-- One element of the list PDFProcessor.pdf_to_images returns: an
in-memory OpenCV image, or the path of a saved page file. -/
inductive PageOut where
  | img (i : CVImage)
  | path (p : String)
deriving DecidableEq

/-- PDFProcessor.pdf_to_images (pdf_demo_not_working.py lines 30-74):
check the PDF exists, resolve poppler (explicit value or probe; here the
raise is on poppler_path is None), rasterize, build the grayscale
in-memory images and — when output_dir is truthy — the saved page paths
output_dir/page_{i:03d}.png, and return cv2_images if not output_dir else
image_paths. -/
def pdf_to_images (ex : String → Bool)
    (rasterize : String → Nat → String → List PILImage)
    (username : Option String) (poppler_path : Option String) (dpi : Nat)
    (pdf_path : String) (output_dir : Option String) :
    Except RunError (List PageOut) :=
  if ¬ ex pdf_path then
    .error (.fileNotFound ("PDF file not found: " ++ pdf_path))
  else
    match pyOrStr poppler_path (find_poppler ex username) with
    | none => .error (.popplerNotFound "Poppler not found. Please install Poppler.")
    | some p =>
      let pil_images := rasterize pdf_path dpi p
      let cv2_images := pil_images.map (fun q => npArray (pilToL q))
      let image_paths := (List.range pil_images.length).map
        (fun k => joinPath (output_dir.getD "")
          ("page_" ++ pad3 (k + 1) ++ ".png"))
      if truthyStr output_dir then .ok (image_paths.map PageOut.path)
      else .ok (cv2_images.map PageOut.img)

/-- One entry of the results list of PDFProcessor.process_pdf_with_htr
(pdf_demo_not_working.py lines 114-120). -/
structure DemoPageResult where
  page_number : Nat
  text : List Char
  lines_count : Nat
  words_count : Nat
  image_shape : List Nat
deriving DecidableEq

/-- The aggregation step of process_pdf_with_htr (pdf_demo_not_working.py
lines 109-120): serialize the page text, count the lines with len and the
words with sum(len(line) for line in read_lines). -/
def aggregate_page (page_num : Nat) (read_lines : List Line)
    (image : CVImage) : DemoPageResult :=
  { page_number := page_num,
    text := serializePage read_lines,
    lines_count := read_lines.length,
    words_count := (read_lines.map List.length).sum,
    image_shape := image.shape }

end PdfDemo

namespace CheckPy

/-- The engine invocation process_page builds (scripts/check.py lines
62-76): grayscale a 3-axis image, then read_page with
DetectorConfig(scale, margin),
LineClusteringConfig(min_words_per_line) and
ReaderConfig(decoder chosen by use_dictionary, prefix_tree being the
module-level tree g when use_dictionary else None). -/
def process_page_call (g : PrefixTree) (img : CVImage) (scale : ℚ)
    (margin : Nat) (use_dictionary : Bool) (min_words_per_line : Nat) :
    EngineCall :=
  let img := if img.shape.length = 3 then cvtColorGray img else img
  { image := img,
    detector_config := ⟨scale, margin⟩,
    line_clustering_config := ⟨min_words_per_line⟩,
    reader_config :=
      ⟨if use_dictionary then .word_beam_search else .best_path,
       if use_dictionary then some g else none⟩ }

end CheckPy

/-- A list of characters that starts with a non-whitespace character. -/
def headNonWs (s : List Char) : Prop :=
  ∃ c t, s = c :: t ∧ isPyWs c = false

lemma headNonWs_append {p : List Char} (h : headNonWs p) (r : List Char) :
    headNonWs (p ++ r) := by
  obtain ⟨c, t, hp, hc⟩ := h
  exact ⟨c, t ++ r, by simp [hp], hc⟩

lemma headNonWs_of_forall {w : List Char} (hne : w ≠ [])
    (h : ∀ c ∈ w, isPyWs c = false) : headNonWs w := by
  cases w with
  | nil => exact absurd rfl hne
  | cons c t => exact ⟨c, t, rfl, h c (by simp)⟩

/-- A join over a non-empty list starts with its first piece. -/
lemma pyJoin_cons_append (sep : Char) (p : List Char) (ps : List (List Char)) :
    ∃ r, pyJoin sep (p :: ps) = p ++ r := by
  cases ps with
  | nil => exact ⟨[], by simp [pyJoin]⟩
  | cons q qs => exact ⟨sep :: pyJoin sep (q :: qs), rfl⟩

lemma headNonWs_pyJoin_cons {sep : Char} {p : List Char}
    (ps : List (List Char)) (h : headNonWs p) :
    headNonWs (pyJoin sep (p :: ps)) := by
  obtain ⟨r, hr⟩ := pyJoin_cons_append sep p ps
  rw [hr]
  exact headNonWs_append h r

/-- A join over a list ending in x ends with sep followed by x. -/
lemma pyJoin_append_singleton (sep : Char) :
    ∀ (l : List (List Char)) (x : List Char), l ≠ [] →
      pyJoin sep (l ++ [x]) = pyJoin sep l ++ sep :: x := by
  intro l
  induction l with
  | nil => intro x h; exact absurd rfl h
  | cons w l ih =>
    intro x _
    cases l with
    | nil => simp [pyJoin]
    | cons w2 l2 =>
      have := ih x (by simp)
      show w ++ sep :: pyJoin sep ((w2 :: l2) ++ [x])
        = (w ++ sep :: pyJoin sep (w2 :: l2)) ++ sep :: x
      rw [this]
      simp

lemma headNonWs_reverse_pyJoin {sep : Char} (l : List (List Char))
    (x : List Char) (hx : headNonWs x.reverse) :
    headNonWs (pyJoin sep (l ++ [x])).reverse := by
  cases l with
  | nil => simpa [pyJoin] using hx
  | cons w l2 =>
    rw [pyJoin_append_singleton sep (w :: l2) x (by simp)]
    rw [List.reverse_append, List.reverse_cons, List.append_assoc]
    exact headNonWs_append hx _

lemma pySplit_ne_nil (sep : Char) : ∀ s : List Char, pySplit sep s ≠ []
  | [] => by simp [pySplit]
  | c :: cs => by
    simp only [pySplit]
    split
    · simp
    · split <;> simp

/-- Splitting after prepending a separator-free chunk extends the first
piece of the split. -/
lemma pySplit_append (sep : Char) :
    ∀ (w s p : List Char) (ps : List (List Char)),
      (∀ c ∈ w, ¬ c = sep) → pySplit sep s = p :: ps →
      pySplit sep (w ++ s) = (w ++ p) :: ps := by
  intro w
  induction w with
  | nil => intro s p ps _ h; simpa using h
  | cons c w ih =>
    intro s p ps hw h
    have hc : ¬ c = sep := hw c (by simp)
    have hrest := ih s p ps (fun d hd => hw d (by simp [hd])) h
    show pySplit sep (c :: (w ++ s)) = ((c :: w) ++ p) :: ps
    simp only [pySplit, if_neg hc, hrest]
    simp

/-- Splitting undoes joining when the pieces are separator-free and the
piece list is non-empty (Python sep.join / str.split semantics). -/
lemma pySplit_pyJoin (sep : Char) :
    ∀ ws : List (List Char), ws ≠ [] →
      (∀ w ∈ ws, ∀ c ∈ w, ¬ c = sep) →
      pySplit sep (pyJoin sep ws) = ws := by
  intro ws
  induction ws with
  | nil => intro h _; exact absurd rfl h
  | cons w ws ih =>
    intro _ hsep
    cases ws with
    | nil =>
      have := pySplit_append sep w [] [] []
        (fun c hc => hsep w (by simp) c hc) rfl
      simpa [pyJoin] using this
    | cons w2 ws2 =>
      have ih2 := ih (by simp) (fun u hu c hc => hsep u (by simp [hu]) c hc)
      have hs : pySplit sep (sep :: pyJoin sep (w2 :: ws2))
          = [] :: (w2 :: ws2) := by
        simp [pySplit, ih2]
      have := pySplit_append sep w (sep :: pyJoin sep (w2 :: ws2)) [] (w2 :: ws2)
        (fun c hc => hsep w (by simp) c hc) hs
      simpa using this

/-- Every character of a join is the separator or a character of a piece. -/
lemma mem_pyJoin (sep : Char) :
    ∀ (ws : List (List Char)) (c : Char), c ∈ pyJoin sep ws →
      c = sep ∨ ∃ w ∈ ws, c ∈ w := by
  intro ws
  induction ws with
  | nil => intro c hc; simp [pyJoin] at hc
  | cons w ws ih =>
    intro c hc
    cases ws with
    | nil => exact Or.inr ⟨w, by simp, by simpa [pyJoin] using hc⟩
    | cons w2 ws2 =>
      rcases List.mem_append.mp hc with h | h
      · exact Or.inr ⟨w, by simp, h⟩
      · rcases List.mem_cons.mp h with h | h
        · exact Or.inl h
        · rcases ih c h with h1 | ⟨u, hu, hcu⟩
          · exact Or.inl h1
          · exact Or.inr ⟨u, List.mem_cons_of_mem w hu, hcu⟩

/-- The accumulated page text is the newline-join of the joined lines,
followed by one trailing newline. -/
lemma serCat_eq : ∀ lines : List Line, lines ≠ [] →
    serCat lines = pyJoin '\n' (lines.map (pyJoin ' ')) ++ ['\n'] := by
  intro lines
  induction lines with
  | nil => intro h; exact absurd rfl h
  | cons l ls ih =>
    intro _
    cases ls with
    | nil => simp [serCat, pyJoin]
    | cons l2 ls2 =>
      have := ih (by simp)
      show (pyJoin ' ' l ++ ['\n']) ++ serCat (l2 :: ls2) = _
      rw [this]
      show _ = pyJoin ' ' l ++ '\n' :: pyJoin '\n' ((l2 :: ls2).map (pyJoin ' ')) ++ ['\n']
      simp

/-- str.strip() of body-plus-newline removes exactly the trailing newline
when the body starts and ends with non-whitespace. -/
lemma pstrip_append_newline (B : List Char) (h1 : headNonWs B)
    (h2 : headNonWs B.reverse) : pstrip (B ++ ['\n']) = B := by
  obtain ⟨c, t, hB, hc⟩ := h1
  obtain ⟨d, u, hBr, hd⟩ := h2
  unfold pstrip
  have hdrop1 : (B ++ ['\n']).dropWhile isPyWs = B ++ ['\n'] := by
    rw [hB, List.cons_append, List.dropWhile_cons, hc]
    simp
  rw [hdrop1, List.reverse_append]
  have hdrop2 : ('\n' :: B.reverse).dropWhile isPyWs = B.reverse := by
    rw [List.dropWhile_cons]
    rw [show isPyWs '\n' = true from rfl]
    rw [hBr, List.dropWhile_cons, hd]
    simp
  simp only [List.reverse_cons, List.reverse_nil, List.nil_append]
  show (('\n' :: B.reverse).dropWhile isPyWs).reverse = B
  rw [hdrop2, List.reverse_reverse]

namespace GradioDemo

/-- Writing a list of files leaves the directory set unchanged. -/
lemma applyWrites_dirs (ws : List (String × List Char)) :
    ∀ fs : FS, (applyWrites ws fs).dirs = fs.dirs := by
  induction ws with
  | nil => intro fs; rfl
  | cons w ws ih => intro fs; exact ih (writeFile fs w.1 w.2)

/-- After a list of writes, a path holds the last content written to it,
and an unwritten path is unchanged. -/
lemma applyWrites_files (ws : List (String × List Char)) :
    ∀ (fs : FS) (q : String),
      (applyWrites ws fs).files q =
        match lastWrite q ws with
        | some c => some c
        | none => fs.files q := by
  induction ws with
  | nil => intro fs q; rfl
  | cons w ws ih =>
    intro fs q
    have h1 : applyWrites (w :: ws) fs = applyWrites ws (writeFile fs w.1 w.2) := rfl
    rw [h1, ih]
    cases h : lastWrite q ws with
    | some c => simp [lastWrite, h]
    | none =>
      simp only [lastWrite, h, writeFile]
      by_cases hq : q = w.1 <;> simp [hq]

/-- File contents after save_results on a non-empty result list: the
combined artifact, the last page write to the path, or the prior
content. -/
lemma save_results_files (rs : List GPageRec) (hrs : rs ≠ []) (d : String)
    (fs : FS) (q : String) :
    (save_results (some rs) d fs).files q =
      if q = joinPath d "all_pages.txt" then some (combinedChars rs)
      else
        match lastWrite q (pageWrites d rs) with
        | some c => some c
        | none => fs.files q := by
  simp only [save_results, if_neg hrs]
  show (if q = joinPath d "all_pages.txt" then some (combinedChars rs)
      else (applyWrites (pageWrites d rs) (makedirs fs d)).files q) = _
  rw [applyWrites_files]
  rfl

/-- Directory set after save_results on a non-empty result list: exactly
the output directory is added. -/
lemma save_results_dirs (rs : List GPageRec) (hrs : rs ≠ []) (d : String)
    (fs : FS) (q : String) :
    (save_results (some rs) d fs).dirs q =
      if q = d then true else fs.dirs q := by
  simp only [save_results, if_neg hrs]
  show (applyWrites (pageWrites d rs) (makedirs fs d)).dirs q = _
  rw [applyWrites_dirs]
  rfl

end GradioDemo

/-- C1: the claim says materialization always returns page images, one per
source page, regardless of the persist directory.  Evaluated at a concrete
one-page document with poppler present: PDFProcessor.pdf_to_images returns
the saved file path (a string, not a page image) when a persist directory
is supplied, and the page image only when it is not. -/
theorem c1_pdf_to_images_persist_dir_returns_paths :
    PdfDemo.pdf_to_images
      (fun s => s = "doc.pdf" || s = "C:\\poppler\\poppler\\Library\\bin")
      (fun _ _ _ => [⟨"L", 100, 80, 7⟩]) none none 200 "doc.pdf" (some "out")
      = .ok [PdfDemo.PageOut.path "out/page_001.png"]
    ∧ PdfDemo.pdf_to_images
      (fun s => s = "doc.pdf" || s = "C:\\poppler\\poppler\\Library\\bin")
      (fun _ _ _ => [⟨"L", 100, 80, 7⟩]) none none 200 "doc.pdf" none
      = .ok [PdfDemo.PageOut.img ⟨false, 100, 80, 7⟩] :=
  ⟨rfl, rfl⟩

/-- C3 counterexample: a page whose first line has zero words does not
round-trip, because str.strip() deletes the leading empty line: the page
[[], ["A"]] serializes to "A", which splits back to [["A"]]. -/
theorem c3_roundtrip_counterexample :
    roundTripPage (serializePage [[], [['A']]]) ≠ [[], [['A']]] := by decide

/-- C3 amended: the serialized page text is each line's words joined by a
single space, lines joined by a single newline, with leading and trailing
whitespace stripped (so no trailing blank line, but empty lines at the
start or end of the page are deleted too); splitting by newline then by
space reproduces the original per-line word sequences for pages with at
least one line in which every line has at least one word and every word is
non-empty and free of whitespace characters. -/
theorem c3_serialize_roundtrip_amended (lines : List Line)
    (hne : lines ≠ [])
    (hl : ∀ l ∈ lines, l ≠ [])
    (hw : ∀ l ∈ lines, ∀ w ∈ l, w ≠ [] ∧ ∀ c ∈ w, isPyWs c = false) :
    roundTripPage (serializePage lines) = lines := by
  set B := pyJoin '\n' (lines.map (pyJoin ' ')) with hBdef
  obtain ⟨l0, rest, hlines⟩ := List.exists_cons_of_ne_nil hne
  have hB1 : headNonWs B := by
    obtain ⟨w0, l0t, hl0⟩ := List.exists_cons_of_ne_nil (hl l0 (by rw [hlines]; simp))
    have hw0 : headNonWs w0 := by
      have h := hw l0 (by rw [hlines]; simp) w0 (by rw [hl0]; simp)
      exact headNonWs_of_forall h.1 h.2
    rw [hBdef, hlines]
    simp only [List.map_cons]
    apply headNonWs_pyJoin_cons
    rw [hl0]
    exact headNonWs_pyJoin_cons _ hw0
  have hB2 : headNonWs B.reverse := by
    rcases List.eq_nil_or_concat lines with h | ⟨lines1, ll, hconc⟩
    · exact absurd h hne
    · have hll_mem : ll ∈ lines := by rw [hconc]; simp [List.concat_eq_append]
      rcases List.eq_nil_or_concat ll with h | ⟨ll1, wl, hllconc⟩
      · exact absurd h (hl ll hll_mem)
      · have hwl := hw ll hll_mem wl (by rw [hllconc]; simp [List.concat_eq_append])
        have hwlrev : headNonWs wl.reverse :=
          headNonWs_of_forall (by simpa using hwl.1)
            (fun c hc => hwl.2 c (List.mem_reverse.mp hc))
        have hjlrev : headNonWs (pyJoin ' ' ll).reverse := by
          rw [hllconc, List.concat_eq_append]
          exact headNonWs_reverse_pyJoin ll1 wl hwlrev
        rw [hBdef, hconc, List.concat_eq_append, List.map_append]
        simp only [List.map_cons, List.map_nil]
        exact headNonWs_reverse_pyJoin _ _ hjlrev
  have hser : serializePage lines = B := by
    rw [serializePage, serCat_eq lines hne, ← hBdef, pstrip_append_newline B hB1 hB2]
  have hsplitN : pySplit '\n' B = lines.map (pyJoin ' ') := by
    rw [hBdef]
    apply pySplit_pyJoin
    · simpa using hne
    · intro p hp c hcp
      obtain ⟨l, hlmem, hpl⟩ := List.mem_map.mp hp
      rcases mem_pyJoin ' ' l c (by rw [hpl]; exact hcp) with h | ⟨w, hwmem, hcw⟩
      · rw [h]; decide
      · intro hcontra
        have := (hw l hlmem w hwmem).2 c hcw
        rw [hcontra] at this
        exact absurd this (by decide)
  have hsplitS : ∀ l ∈ lines, pySplit ' ' (pyJoin ' ' l) = l := by
    intro l hlmem
    apply pySplit_pyJoin
    · exact hl l hlmem
    · intro w hwmem c hcw hcontra
      have := (hw l hlmem w hwmem).2 c hcw
      rw [hcontra] at this
      exact absurd this (by decide)
  rw [roundTripPage, hser, hsplitN, List.map_map]
  rw [show (pySplit ' ' ∘ pyJoin ' ') = fun l => pySplit ' ' (pyJoin ' ' l) from rfl]
  rw [List.map_congr_left hsplitS]
  simp

/-- Witness for the amended C3 round trip at a concrete two-line page. -/
theorem c3_serialize_roundtrip_amended_witness :
    roundTripPage (serializePage [[['H', 'I'], ['A']], [['B']]])
      = [[['H', 'I'], ['A']], [['B']]] :=
  c3_serialize_roundtrip_amended [[['H', 'I'], ['A']], [['B']]]
    (by decide) (by decide) (by decide)

/-- C4: the aggregated counts of process_pdf_with_htr: words_count is the
sum of the line lengths and lines_count the number of lines; appending a
line with zero words still increments lines_count and leaves words_count
unchanged, so empty lines are not filtered. -/
theorem c4_aggregate_counts (n : Nat) (ls : List Line) (img : CVImage) :
    (PdfDemo.aggregate_page n ls img).words_count = (ls.map List.length).sum
    ∧ (PdfDemo.aggregate_page n ls img).lines_count = ls.length
    ∧ (PdfDemo.aggregate_page n (ls ++ [[]]) img).lines_count
        = (PdfDemo.aggregate_page n ls img).lines_count + 1
    ∧ (PdfDemo.aggregate_page n (ls ++ [[]]) img).words_count
        = (PdfDemo.aggregate_page n ls img).words_count := by
  refine ⟨rfl, rfl, ?_, ?_⟩ <;> simp [PdfDemo.aggregate_page]

/-- C5: the claim says a lexicon-constrained configuration with an absent
lexicon fails validation before dispatch.  Evaluated on the code: with
use_dictionary set and the dictionary file absent, process_image_with_htr
still dispatches the engine with decoder word_beam_search and no prefix
tree — no validation happens. -/
theorem c5_missing_lexicon_still_dispatched :
    (GradioDemo.process_image_call ⟨false, 100, 80, 7⟩ (2/5 : ℚ) 5 true
        none).reader_config
      = ⟨Decoder.word_beam_search, none⟩ := rfl

/-- C6 counterexample: the claim says a non-existent explicit toolchain
path is rejected.  With an existence check that is false everywhere, the
locator still returns the explicit path as-is. -/
theorem c6_nonexistent_explicit_path_accepted :
    GradioDemo.locate (fun _ => false) (some "C:\\nonexistent\\bin")
      = .ok "C:\\nonexistent\\bin" := rfl

/-- C6 amended: an explicit non-empty toolchain path is returned as-is
with no existence validation; otherwise the fixed ordered probe list is
checked and the first existing location returned, and the locator fails
with the poppler-not-found error carrying remediation text exactly when no
explicit path was supplied and no probed location exists. -/
theorem c6_locator_amended (ex : String → Bool) (p : String) (hp : p ≠ "") :
    GradioDemo.locate ex (some p) = .ok p
    ∧ (ex "C:\\poppler\\poppler\\Library\\bin" = true →
        GradioDemo.locate ex none = .ok "C:\\poppler\\poppler\\Library\\bin")
    ∧ (ex "C:\\poppler\\poppler\\Library\\bin" = false →
        ex "C:\\poppler\\bin" = true →
        GradioDemo.locate ex none = .ok "C:\\poppler\\bin")
    ∧ (ex "C:\\poppler\\poppler\\Library\\bin" = false →
        ex "C:\\poppler\\bin" = false →
        ex "C:\\Program Files\\poppler\\bin" = true →
        GradioDemo.locate ex none = .ok "C:\\Program Files\\poppler\\bin")
    ∧ (ex "C:\\poppler\\poppler\\Library\\bin" = false →
        ex "C:\\poppler\\bin" = false →
        ex "C:\\Program Files\\poppler\\bin" = false →
        GradioDemo.locate ex none
          = .error (.popplerNotFound GradioDemo.remediation)) := by
  refine ⟨?_, ?_, ?_, ?_, ?_⟩ <;>
    intros <;>
    simp_all [GradioDemo.locate, pyOrStr, truthyStr, GradioDemo.find_poppler,
      GradioDemo.paths_to_try, List.find?, hp]

/-- Witness for the amended C6 theorem at a concrete existence check. -/
theorem c6_locator_amended_witness :
    GradioDemo.locate (fun _ => false) (some "C:\\explicit") = .ok "C:\\explicit"
    ∧ GradioDemo.locate (fun _ => false) none
        = .error (.popplerNotFound GradioDemo.remediation) :=
  ⟨(c6_locator_amended (fun _ => false) "C:\\explicit" (by decide)).1,
   (c6_locator_amended (fun _ => false) "C:\\explicit" (by decide)).2.2.2.2
     rfl rfl rfl⟩

/-- C7: check.py's process_page passes scale, margin and
min_words_per_line to the engine unchanged, and maps the dictionary flag
to word_beam_search together with the module-level prefix tree, and its
absence to best_path with no tree. -/
theorem c7_dispatch_passthrough (g : PrefixTree) (img : CVImage) (scale : ℚ)
    (margin : Nat) (use_dictionary : Bool) (mwpl : Nat) :
    (CheckPy.process_page_call g img scale margin use_dictionary
        mwpl).detector_config.scale = scale
    ∧ (CheckPy.process_page_call g img scale margin use_dictionary
        mwpl).detector_config.margin = margin
    ∧ (CheckPy.process_page_call g img scale margin use_dictionary
        mwpl).line_clustering_config.min_words_per_line = mwpl
    ∧ (use_dictionary = true →
        (CheckPy.process_page_call g img scale margin use_dictionary
            mwpl).reader_config = ⟨Decoder.word_beam_search, some g⟩)
    ∧ (use_dictionary = false →
        (CheckPy.process_page_call g img scale margin use_dictionary
            mwpl).reader_config = ⟨Decoder.best_path, none⟩) := by
  cases use_dictionary <;> simp [CheckPy.process_page_call]

/-- Witness for C7 at a concrete dispatch. -/
theorem c7_dispatch_passthrough_witness :
    (CheckPy.process_page_call ⟨[]⟩ ⟨false, 1, 1, 0⟩ 1 5 true 2).reader_config
      = ⟨Decoder.word_beam_search, some ⟨[]⟩⟩ :=
  (c7_dispatch_passthrough ⟨[]⟩ ⟨false, 1, 1, 0⟩ 1 5 true 2).2.2.2.1 rfl

/-- If any page's engine invocation raises, the page loop of
process_pdf_file propagates the error. -/
lemma pagesLoop_error_of_page_error
    (read_page : EngineCall → Except RecError (List Line))
    (ud : Bool) (df : Option (List Word)) :
    ∀ (images : List CVImage) (i : Nat),
      (∃ j, ∃ hj : j < images.length, ∃ e,
        read_page (GradioDemo.process_image_call (images.get ⟨j, hj⟩)
          (2/5 : ℚ) 5 ud df) = .error e) →
      ∃ e, GradioDemo.pagesLoop read_page ud df i images = .error e := by
  intro images
  induction images with
  | nil =>
    intro i h
    obtain ⟨j, hj, -⟩ := h
    exact absurd hj (Nat.not_lt_zero j)
  | cons img rest ih =>
    intro i h
    obtain ⟨j, hj, e, he⟩ := h
    cases hr : read_page (GradioDemo.process_image_call img (2/5 : ℚ) 5 ud df) with
    | error e1 =>
      exact ⟨e1, by
        simp [GradioDemo.pagesLoop, GradioDemo.process_image_with_htr, hr, Except.map]⟩
    | ok lines =>
      cases j with
      | zero =>
        rw [show (img :: rest).get ⟨0, hj⟩ = img from rfl] at he
        rw [hr] at he
        exact absurd he (by simp)
      | succ j1 =>
        have hj1 : j1 < rest.length := Nat.lt_of_succ_lt_succ hj
        obtain ⟨e2, hrest⟩ := ih (i + 1)
          ⟨j1, hj1, e, by
            rw [show (img :: rest).get ⟨j1 + 1, hj⟩ = rest.get ⟨j1, hj1⟩ from rfl] at he
            exact he⟩
        exact ⟨e2, by
          simp [GradioDemo.pagesLoop, GradioDemo.process_image_with_htr, hr,
            Except.map, hrest]⟩

/-- C2: the batch is all-or-nothing: whenever conversion succeeded and the
engine raises on any one page, process_pdf_file returns None — no partial
per-page results list with the successful pages is returned. -/
theorem c2_single_page_failure_aborts_run
    (ex : String → Bool) (rasterize : String → Nat → String → List PILImage)
    (read_page : EngineCall → Except RecError (List Line))
    (pdf_path : String) (output_dir : Option String)
    (use_dictionary : Bool) (dictFile : Option (List Word))
    (images : List CVImage)
    (hconv : (GradioDemo.convert_pdf_to_images ex rasterize none 200 pdf_path
        output_dir).1 = .ok images)
    (hfail : ∃ j, ∃ hj : j < images.length, ∃ e,
        read_page (GradioDemo.process_image_call (images.get ⟨j, hj⟩)
          (2/5 : ℚ) 5 use_dictionary dictFile) = .error e) :
    GradioDemo.process_pdf_file ex rasterize read_page pdf_path output_dir
      use_dictionary dictFile = none := by
  obtain ⟨e, hloop⟩ :=
    pagesLoop_error_of_page_error read_page use_dictionary dictFile images 1 hfail
  unfold GradioDemo.process_pdf_file
  rw [hconv]
  dsimp only
  rw [hloop]

/-- Witness for C2: a three-page document whose second page's recognition
raises; the run returns None. -/
theorem c2_single_page_failure_aborts_run_witness :
    GradioDemo.process_pdf_file (fun _ => true)
      (fun _ _ _ => [⟨"L", 2, 2, 0⟩, ⟨"L", 2, 2, 1⟩, ⟨"L", 2, 2, 2⟩])
      (fun c => if c.image.content = 1 then .error ⟨"recognition failed"⟩ else .ok [])
      "doc.pdf" none false none = none :=
  c2_single_page_failure_aborts_run (fun _ => true)
    (fun _ _ _ => [⟨"L", 2, 2, 0⟩, ⟨"L", 2, 2, 1⟩, ⟨"L", 2, 2, 2⟩])
    (fun c => if c.image.content = 1 then .error ⟨"recognition failed"⟩ else .ok [])
    "doc.pdf" none false none
    [⟨false, 2, 2, 0⟩, ⟨false, 2, 2, 1⟩, ⟨false, 2, 2, 2⟩] rfl
    ⟨1, by decide, ⟨"recognition failed"⟩, rfl⟩

/-- C8: when no explicit toolchain path is supplied and no probed location
exists, convert_pdf_to_images fails with the poppler-not-found error and
the event trace is empty: the rasterization engine is never invoked and no
page image is produced. -/
theorem c8_toolchain_missing_blocks_rasterization
    (ex : String → Bool) (rasterize : String → Nat → String → List PILImage)
    (dpi : Nat) (pdf_path : String) (output_dir : Option String)
    (hpdf : ex pdf_path = true)
    (hprobe : ∀ q ∈ GradioDemo.paths_to_try, ex q = false) :
    GradioDemo.convert_pdf_to_images ex rasterize none dpi pdf_path output_dir
      = (.error (.popplerNotFound GradioDemo.remediation), []) := by
  have hfind : GradioDemo.find_poppler ex = none := by
    unfold GradioDemo.find_poppler
    exact List.find?_eq_none.mpr (fun q hq => by simp [hprobe q hq])
  simp [GradioDemo.convert_pdf_to_images, GradioDemo.locate, pyOrStr,
    truthyStr, hfind, hpdf]

/-- Witness for C8 at a concrete filesystem where only the document
exists. -/
theorem c8_toolchain_missing_blocks_rasterization_witness :
    GradioDemo.convert_pdf_to_images (fun s => s = "doc.pdf")
      (fun _ _ _ => [⟨"L", 2, 2, 0⟩]) none 200 "doc.pdf" none
      = (.error (.popplerNotFound GradioDemo.remediation), []) :=
  c8_toolchain_missing_blocks_rasterization (fun s => s = "doc.pdf")
    (fun _ _ _ => [⟨"L", 2, 2, 0⟩]) 200 "doc.pdf" none (by decide)
    (by decide)

/-- C9: persisting the same batch result twice to the same output
directory is idempotent: the filesystem — every per-page text file, the
combined artifact and the directory set — is identical after the second
run, because the writes overwrite the same paths with the same contents. -/
theorem c9_persist_idempotent (results : Option (List GradioDemo.GPageRec))
    (d : String) (fs : GradioDemo.FS) :
    GradioDemo.save_results results d (GradioDemo.save_results results d fs)
      = GradioDemo.save_results results d fs := by
  cases results with
  | none => rfl
  | some rs =>
    by_cases hrs : rs = []
    · subst hrs; rfl
    · apply GradioDemo.FS.ext
      · funext q
        simp only [GradioDemo.save_results_files rs hrs d]
        by_cases hq : q = joinPath d "all_pages.txt"
        · simp [hq]
        · cases h : GradioDemo.lastWrite q (GradioDemo.pageWrites d rs) with
          | some c => simp [hq, h]
          | none => simp [hq, h]
      · funext q
        simp only [GradioDemo.save_results_dirs rs hrs d]
        by_cases hq : q = d <;> simp [hq]

/-- C10: persisting a missing or empty result set is a complete no-op:
save_results returns the filesystem unchanged, creating no directory and
writing no file. -/
theorem c10_persist_empty_noop (output_dir : String) (fs : GradioDemo.FS) :
    GradioDemo.save_results none output_dir fs = fs
    ∧ GradioDemo.save_results (some []) output_dir fs = fs :=
  ⟨rfl, rfl⟩

end HTR




